import Mathlib

/-!
Verification of the makyno task-orchestration core against its source.

The embedding models, from the TypeScript source:
* the feature-card store operations `createFeature`, `listFeatures`,
  `updateFeatureStatus` and the mock agent finaliser (src/unnamed/part_003);
* the AI-chat tool registrations and their static approval flags
  (src/src/features/ai-chat/tools/file-tools.ts, command-tools.ts,
  src/unnamed/part_002);
* the `edit_file` tool's substring replacement (file-tools.ts);
* the `run_command` tool's result shaping over the outcome of the
  underlying `child_process.exec` call (command-tools.ts).

Timestamps (ISO strings produced by `new Date().toISOString()` /
`Date.now()`) are modelled as natural numbers; JavaScript strings are
modelled as Lean strings, with the character-level operations the code
relies on (`includes`, `replace`, global regex match count, `trim`)
re-implemented structurally over `List Char` so they evaluate in the
kernel.
-/

namespace Makyno

/-- The six feature statuses (`FeatureCard.status` in src/unnamed/part_003). -/
inductive Status where
  | backlog
  | todo
  | in_progress
  | wait_approval
  | done
  | rejected
deriving DecidableEq

/-- Severity of an activity-log entry (`ActivityLog.type`). -/
inductive LogType where
  | info
  | success
  | error
deriving DecidableEq

/-- One activity-log entry (`ActivityLog` in src/unnamed/part_003). -/
structure ActivityLog where
  timestamp : Nat
  message : String
  type : LogType
deriving DecidableEq

/-- Merge metadata attached by the mock agent (`FeatureCard.metadata`). -/
structure FeatureMetadata where
  branch : Option String := none
  commits : Option Nat := none
  filesChanged : Option (List String) := none
  diff : Option String := none
deriving DecidableEq

/-- A feature card as persisted in `.makyno/features/<id>/feature.json`
(`FeatureCard` in src/unnamed/part_003). -/
structure FeatureCard where
  id : String
  title : String
  description : String
  status : Status
  createdAt : Nat
  startedAt : Option Nat := none
  implementedAt : Option Nat := none
  completedAt : Option Nat := none
  rejectedAt : Option Nat := none
  rejectionReason : Option String := none
  logs : List ActivityLog
  metadata : Option FeatureMetadata := none
deriving DecidableEq

/-- `createFeature` (src/unnamed/part_003 lines 72-104): builds the new card
with status backlog, `createdAt` set, no lifecycle timestamps, and a single
initial log entry, then persists it.  `now` stands for both `Date.now()`
(used for the id) and `new Date().toISOString()`. -/
def createFeature (title description : String) (now : Nat) : FeatureCard :=
  { id := "feat-" ++ toString now
    title := title
    description := description
    status := Status.backlog
    createdAt := now
    logs := [{ timestamp := now
               message := "Feature created and added to backlog"
               type := LogType.info }] }

/-- The pure state change performed by the `updateFeatureStatus` handler
(src/unnamed/part_003 lines 154-201) between reading and writing the record:
set the status unconditionally, then run the five independent
status-specific blocks, each appending a log entry and (for the four
timestamped statuses) setting the timestamp only when it is still unset. -/
def applyStatusUpdate (feature : FeatureCard) (target : Status) (now : Nat) :
    FeatureCard :=
  let oldStatus := feature.status
  let f0 := { feature with status := target }
  let f1 :=
    if target = Status.todo ∧ oldStatus = Status.backlog then
      { f0 with logs := f0.logs ++
          [{ timestamp := now
             message := "Moved from backlog to todo - ready to start"
             type := LogType.info }] }
    else f0
  let f2 :=
    if target = Status.in_progress ∧ f1.startedAt = none then
      { f1 with startedAt := some now
                logs := f1.logs ++
          [{ timestamp := now
             message := "AI agent started working on this feature"
             type := LogType.info }] }
    else f1
  let f3 :=
    if target = Status.wait_approval ∧ f2.implementedAt = none then
      { f2 with implementedAt := some now
                logs := f2.logs ++
          [{ timestamp := now
             message := "Implementation complete - waiting for approval"
             type := LogType.success }] }
    else f2
  let f4 :=
    if target = Status.done ∧ f3.completedAt = none then
      { f3 with completedAt := some now
                logs := f3.logs ++
          [{ timestamp := now
             message := "Feature approved and merged to main branch"
             type := LogType.success }] }
    else f3
  let f5 :=
    if target = Status.rejected ∧ f4.rejectedAt = none then
      { f4 with rejectedAt := some now
                logs := f4.logs ++
          [{ timestamp := now
             message := "Feature rejected - needs revision"
             type := LogType.error }] }
    else f4
  f5

/-- The only failure mode of the `updateFeatureStatus` handler: `fs.readFile`
on an unknown id throws ENOENT (there is no catch in the handler, so the
exception propagates to the caller). -/
inductive StoreError where
  | fileNotFound
deriving DecidableEq

/-- `updateFeatureStatus` (src/unnamed/part_003 lines 145-207) over a store
snapshot mapping feature ids to their persisted records: read the record
(ENOENT if absent), apply the update, write it back.  Note the handler
performs no validation of the requested status change. -/
def updateFeatureStatus (store : String → Option FeatureCard) (id : String)
    (target : Status) (now : Nat) : Except StoreError FeatureCard :=
  match store id with
  | none => Except.error StoreError.fileNotFound
  | some feature => Except.ok (applyStatusUpdate feature target now)

/-- The final record mutation of `mockAgentWork` (src/unnamed/part_003 lines
291-309): sets status to wait_approval, assigns `implementedAt`
unconditionally, attaches merge metadata, and appends a completion log
entry.  The generated diff text is passed in as `simulatedDiff`. -/
def mockAgentFinish (feature : FeatureCard) (simulatedDiff : String)
    (now : Nat) : FeatureCard :=
  { feature with
    status := Status.wait_approval
    implementedAt := some now
    metadata := some
      { branch := some ("feat/" ++ feature.id)
        commits := some 3
        filesChanged := some
          ["src/features/" ++ feature.id ++ ".ts",
           "src/features/" ++ feature.id ++ ".test.ts"]
        diff := some simulatedDiff }
    logs := feature.logs ++
      [{ timestamp := now
         message := "Implementation complete! Created 3 commits, modified 2 files. Ready for review."
         type := LogType.success }] }

/-- Comparator of `listFeatures` (src/unnamed/part_003 lines 137-140):
`(a, b) => new Date(b.createdAt).getTime() - new Date(a.createdAt).getTime()`,
i.e. `a` is placed before `b` exactly when `a` is at least as new. -/
def featuresLe (a b : FeatureCard) : Bool :=
  decide (b.createdAt ≤ a.createdAt)

/-- `listFeatures` (src/unnamed/part_003 lines 107-142).  The input models
the filesystem state: `none` when `.makyno/features` does not exist
(`fs.access` throws, the handler returns `[]`); otherwise one entry per
feature directory, `none` for a record whose read or JSON parse fails
(caught, logged, and skipped).  The survivors are sorted newest-first by
`createdAt`. -/
def listFeatures (dir : Option (List (Option FeatureCard))) :
    List FeatureCard :=
  match dir with
  | none => []
  | some entries => List.mergeSort (entries.filterMap id) featuresLe

/-! ### Tool registration and static approval flags

Each AI-chat tool is declared once through `toolDefinition({...})` with an
optional static `needsApproval` flag (src/src/features/ai-chat/tools and
src/unnamed/part_002); all nine are registered together in the chat route
(src/src/routes/api.chat.tsx lines 103-116).  `none` models a
`toolDefinition` call that declares no `needsApproval` field at all. -/

/-- A registered tool's name and static approval flag. -/
structure ToolReg where
  name : String
  needsApproval : Option Bool := none
deriving DecidableEq

/-- `read_file` (file-tools.ts): no `needsApproval` field. -/
def readFileReg : ToolReg := { name := "read_file" }

/-- `write_file` (file-tools.ts line 58): `needsApproval: true`. -/
def writeFileReg : ToolReg := { name := "write_file", needsApproval := some true }

/-- `edit_file` (file-tools.ts line 99): `needsApproval: true`. -/
def editFileReg : ToolReg := { name := "edit_file", needsApproval := some true }

/-- `list_files` (file-tools.ts): no `needsApproval` field. -/
def listFilesReg : ToolReg := { name := "list_files" }

/-- `search_code` (file-tools.ts): no `needsApproval` field. -/
def searchCodeReg : ToolReg := { name := "search_code" }

/-- `run_command` (command-tools.ts line 44): `needsApproval: false`, with the
source comment "TODO: Re-enable after fixing TanStack AI approval flow
issue". -/
def runCommandReg : ToolReg := { name := "run_command", needsApproval := some false }

/-- `list_features` (src/unnamed/part_002): no `needsApproval` field. -/
def listFeaturesReg : ToolReg := { name := "list_features" }

/-- `create_feature` (src/unnamed/part_002): no `needsApproval` field. -/
def createFeatureReg : ToolReg := { name := "create_feature" }

/-- `update_feature_status` (src/unnamed/part_002 lines 119-154): no
`needsApproval` field. -/
def updateFeatureStatusReg : ToolReg := { name := "update_feature_status" }

/-- Whether a registered tool is routed through the approval flow: only a
declared `needsApproval: true` gates it (an absent flag defaults to
ungated). -/
def isGated (t : ToolReg) : Bool :=
  t.needsApproval.getD false

/-! ### Character-level string operations

The handlers rely on JavaScript string primitives (`includes`, `replace`
with a string pattern, counting global regex matches of an escaped literal
pattern, `trim`).  They are re-implemented here over `List Char` with
structural recursion so that concrete runs evaluate in the kernel.  The
escaping `oldContent.replace(/[.*+?^${}()|[\]\\]/g, "\\$&")` in
file-tools.ts makes the regex match the literal `oldContent`, so the global
match count is the number of leftmost non-overlapping occurrences. -/

/-- Whether `pat` occurs as a contiguous sublist of `s`
(JavaScript `s.includes(pat)`). -/
def containsSub (pat : List Char) : List Char → Bool
  | [] => pat.isEmpty
  | c :: cs => pat.isPrefixOf (c :: cs) || containsSub pat cs

/-- Replace the leftmost occurrence of `pat` by `repl` (JavaScript
`s.replace(pat, repl)` with a string pattern: first occurrence only; the
string is returned unchanged when there is no occurrence). -/
def replaceFirstAux (pat repl : List Char) : List Char → List Char
  | [] => []
  | c :: cs =>
    if pat.isPrefixOf (c :: cs) then repl ++ (c :: cs).drop pat.length
    else c :: replaceFirstAux pat repl cs

/-- Count the leftmost non-overlapping occurrences of `pat`, resuming after
each match (JavaScript `(s.match(new RegExp(escaped, "g")) || []).length`).
`fuel` bounds the recursion; `s.length + 1` always suffices. -/
def countMatchesAux (pat : List Char) : Nat → List Char → Nat
  | 0, _ => 0
  | fuel + 1, s =>
    match s with
    | [] => if pat.isEmpty then 1 else 0
    | _ :: cs =>
      if pat.isPrefixOf s then
        1 + countMatchesAux pat fuel (s.drop (max pat.length 1))
      else countMatchesAux pat fuel cs

/-- String wrapper for `containsSub`. -/
def strContains (s pat : String) : Bool :=
  containsSub pat.data s.data

/-- String wrapper for `replaceFirstAux`. -/
def strReplaceFirst (s pat repl : String) : String :=
  String.mk (replaceFirstAux pat.data repl.data s.data)

/-- String wrapper for `countMatchesAux`, with sufficient fuel. -/
def strCountMatches (s pat : String) : Nat :=
  countMatchesAux pat.data (s.data.length + 1) s.data

/-- JavaScript `s.trim()`: strip leading and trailing whitespace. -/
def strTrim (s : String) : String :=
  String.mk
    (((s.data.dropWhile Char.isWhitespace).reverse.dropWhile
        Char.isWhitespace).reverse)

/-! ### The edit_file tool -/

/-- The failure mode of the `edit_file` handler: the thrown
"Content not found in ..." error when `oldContent` does not occur in the
file. -/
inductive EditError where
  | contentNotFound
deriving DecidableEq

/-- The result object returned by the `edit_file` handler (its `message`
string, derived from `path` and `replacements`, is omitted). -/
structure EditResult where
  success : Bool
  path : String
  replacements : Nat
deriving DecidableEq

/-- The `edit_file` handler (file-tools.ts lines 100-130) on a file whose
current content is `fileContent`: throw when `oldContent` does not occur
(leaving the file unchanged); otherwise substitute the first occurrence,
count all pattern matches of `oldContent` in the original content, and
write back.  Returns the new file content together with the reported
result. -/
def editFile (filePath fileContent oldContent newContent : String) :
    Except EditError (String × EditResult) :=
  if strContains fileContent oldContent then
    let updatedContent := strReplaceFirst fileContent oldContent newContent
    let replacements := strCountMatches fileContent oldContent
    Except.ok (updatedContent,
      { success := true, path := filePath, replacements := replacements })
  else
    Except.error EditError.contentNotFound

/-! ### The run_command tool

The handler (command-tools.ts lines 45-77) wraps one `execAsync(command,
{ cwd, timeout, maxBuffer })` call in try/catch.  `ExecOutcome` models how
that promise settled: `ok` on exit code 0; `err` otherwise, carrying the
fields of the rejection error the catch block reads (`stdout`, `stderr`,
`code`, `message`) plus the reason the execution failed, which Node encodes
in fields the handler never reads (`killed`/`signal` for the timeout kill,
the maxBuffer error name for output overflow).  On timeout Node terminates
the child and rejects with `code` null; on maxBuffer overflow it kills the
child and rejects with the output captured so far, truncated at the cap. -/

/-- Why the `execAsync` promise rejected. -/
inductive ExecFailKind where
  | timedOut
  | maxBufferExceeded
  | exited
  | infra
deriving DecidableEq

/-- The fields of the rejection error consumed by the catch block, plus the
failure kind. -/
structure ExecError where
  kind : ExecFailKind
  stdout : Option String := none
  stderr : Option String := none
  exitCode : Option Int := none
  message : String
deriving DecidableEq

/-- How the wrapped `execAsync` call settled. -/
inductive ExecOutcome where
  | ok (stdout stderr : String)
  | err (e : ExecError)
deriving DecidableEq

/-- The structured value the `run_command` handler returns (its declared
output schema). -/
structure RunResult where
  success : Bool
  stdout : String
  stderr : String
  exitCode : Int
  command : String
  duration : Nat
deriving DecidableEq

/-- JavaScript `x || dflt` on an optional string: the fallback is used when
the string is absent or empty. -/
def jsOrElse (s : Option String) (dflt : String) : String :=
  match s with
  | some v => if v = "" then dflt else v
  | none => dflt

/-- The `run_command` handler (command-tools.ts lines 45-77) as a function of
the command, the settled outcome of `execAsync`, and the measured duration.
The try branch returns success with trimmed output and exit code 0; the
catch branch returns `success: false` with
`error.stdout?.trim() || ""`, `error.stderr?.trim() || error.message`, and
`error.code || 1`.  It is total: no outcome makes the handler throw. -/
def runCommand (command : String) (outcome : ExecOutcome) (duration : Nat) :
    RunResult :=
  match outcome with
  | ExecOutcome.ok stdout stderr =>
    { success := true
      stdout := strTrim stdout
      stderr := strTrim stderr
      exitCode := 0
      command := command
      duration := duration }
  | ExecOutcome.err e =>
    { success := false
      stdout := jsOrElse (e.stdout.map strTrim) ""
      stderr := jsOrElse (e.stderr.map strTrim) e.message
      exitCode :=
        match e.exitCode with
        | some c => if c = 0 then 1 else c
        | none => 1
      command := command
      duration := duration }

/-- The working directory the handler passes to `execAsync`
(command-tools.ts line 50): `workingDir || process.cwd()`, with no check
against any sandbox root. -/
def effectiveCwd (workingDir : Option String) (processCwd : String) : String :=
  workingDir.getD processCwd

/-- Modelled from the spec: "The working directory for a command must be
constrained to resolve inside the owning sandbox."  A path is inside the
sandbox when the sandbox root is a prefix of it.  No such check exists in
src/; this predicate only states the containment the spec demands. -/
def insideSandbox (sandboxRoot p : String) : Bool :=
  sandboxRoot.data.isPrefixOf p.data

/-! ### Concrete fixtures used by the claim theorems -/

/-- A feature created at time 1000, as `createFeature` stores it. -/
def feat1000 : FeatureCard :=
  createFeature "Add OAuth login" "Support signing in with OAuth" 1000

/-- A store snapshot holding exactly `feat1000` under its id. -/
def store1 : String → Option FeatureCard :=
  fun id => if id = "feat-1000" then some feat1000 else none

/-- `feat1000` after an earlier full cycle: it has been started, implemented
and rejected once, so `startedAt`, `implementedAt` and `rejectedAt` are all
already set, and the retry is in progress again. -/
def featRetry : FeatureCard :=
  { feat1000 with
    status := Status.in_progress
    startedAt := some 1500
    implementedAt := some 1800
    rejectedAt := some 1900 }

/-- A rejection of `execAsync` caused by the execution timeout: Node killed
the child (`killed: true`, `signal: SIGTERM`) and set `code` to null. -/
def timeoutErr : ExecError :=
  { kind := ExecFailKind.timedOut
    stdout := some ""
    stderr := some ""
    exitCode := none
    message := "Command failed: sleep 100" }

/-- A rejection of `execAsync` caused by an infrastructure failure, carrying
the same captured streams, code and message as `timeoutErr`. -/
def infraErr : ExecError :=
  { kind := ExecFailKind.infra
    stdout := some ""
    stderr := some ""
    exitCode := none
    message := "Command failed: sleep 100" }

/-- A rejection of `execAsync` for a process that exited with code 2,
carrying its captured output. -/
def exitedErr : ExecError :=
  { kind := ExecFailKind.exited
    stdout := some " 1 passed, 2 failed "
    stderr := some "tests failed"
    exitCode := some 2
    message := "Command failed: pnpm test" }

/-- A rejection of `execAsync` for a process that exited with code 1 while
emitting nothing on stderr (its captured stderr is the empty string). -/
def exitedSilentErr : ExecError :=
  { kind := ExecFailKind.exited
    stdout := some ""
    stderr := some ""
    exitCode := some 1
    message := "Command failed: false" }

/-- A rejection of `execAsync` caused by the output passing `maxBuffer`:
Node killed the child and the error carries the output captured so far,
truncated at the cap ("xxxx" stands for that truncated capture). -/
def overflowErr : ExecError :=
  { kind := ExecFailKind.maxBufferExceeded
    stdout := some "xxxx"
    stderr := some ""
    exitCode := none
    message := "stdout maxBuffer length exceeded" }

/-- JavaScript `x || dflt` keeps a nonempty string: helper for the catch
branch's `error.stdout?.trim() || ""` where both branches coincide. -/
theorem jsOrElse_some_empty (v : String) : jsOrElse (some v) "" = v := by
  simp only [jsOrElse]
  split
  · rename_i h
    exact h.symm
  · rfl

/-! ### Claim theorems -/

/-- C1: the status-update handler validates nothing: for the stored backlog
task `feat-1000`, a direct backlog→done update succeeds and returns the
record with status done (and `completedAt` set), instead of rejecting the
unreachable target with an InvalidTransition error. -/
theorem c1_backlog_to_done_succeeds :
    feat1000.status = Status.backlog ∧
    updateFeatureStatus store1 "feat-1000" Status.done 2000 =
      Except.ok { feat1000 with
        status := Status.done
        completedAt := some 2000
        logs := feat1000.logs ++
          [{ timestamp := 2000
             message := "Feature approved and merged to main branch"
             type := LogType.success }] } :=
  ⟨rfl, rfl⟩

/-- C2: `mockAgentWork` assigns `implementedAt` unconditionally
(src/unnamed/part_003 line 292): finishing a retry on a task whose
`implementedAt` was already set in an earlier cycle overwrites the
timestamp, contradicting set-at-most-once. -/
theorem c2_implementedAt_overwritten :
    featRetry.implementedAt = some 1800 ∧
    (mockAgentFinish featRetry "simulated diff" 2500).implementedAt =
      some 2500 :=
  ⟨rfl, rfl⟩

/-- C3: the static approval classification contradicts the claim for three
of the mutating tools: `run_command` declares `needsApproval: false` and
`create_feature` / `update_feature_status` declare no flag, so none of them
is approval-gated; only `write_file` and `edit_file` are.  The inspection
tools declare no flag and are auto-executed as the claim states. -/
theorem c3_mutating_tools_not_gated :
    isGated runCommandReg = false ∧
    isGated createFeatureReg = false ∧
    isGated updateFeatureStatusReg = false ∧
    isGated writeFileReg = true ∧
    isGated editFileReg = true ∧
    isGated readFileReg = false ∧
    isGated listFilesReg = false ∧
    isGated searchCodeReg = false ∧
    isGated listFeaturesReg = false :=
  ⟨rfl, rfl, rfl, rfl, rfl, rfl, rfl, rfl, rfl⟩

/-- C4: on file content "aa" with oldContent "a", newContent "b", the edit
succeeds but substitutes only the first occurrence (result "ba") while
reporting `replacements = 2`, the number of pattern matches in the original
content; one occurrence of the old content remains unsubstituted. -/
theorem c4_replacement_count_mismatch :
    editFile "src/app.ts" "aa" "a" "b" =
      Except.ok ("ba",
        { success := true, path := "src/app.ts", replacements := 2 }) ∧
    strCountMatches "ba" "a" = 1 :=
  ⟨rfl, rfl⟩

/-- C5 counterexample: a timed-out run and an infrastructure failure with
the same captured fields produce byte-for-byte identical results, so the
returned result carries no TimedOut indicator distinct from an
infrastructure failure. -/
theorem c5_timeout_indistinguishable :
    timeoutErr.kind = ExecFailKind.timedOut ∧
    infraErr.kind = ExecFailKind.infra ∧
    runCommand "sleep 100" (ExecOutcome.err timeoutErr) 60000 =
      runCommand "sleep 100" (ExecOutcome.err infraErr) 60000 :=
  ⟨rfl, rfl, rfl⟩

/-- C5 (amended): a run whose process exceeded the timeout (terminated by
Node, rejecting `execAsync`) makes the handler return a structured result
with success = false — it never throws — but the result does not
distinguish the timeout from other failures. -/
theorem c5_timeout_returns_failure (command : String) (e : ExecError)
    (d : Nat) (h : e.kind = ExecFailKind.timedOut) :
    (runCommand command (ExecOutcome.err e) d).success = false :=
  rfl

/-- Witness for C5 (amended) at the concrete timed-out outcome. -/
theorem c5_timeout_returns_failure_witness :
    timeoutErr.kind = ExecFailKind.timedOut ∧
    (runCommand "sleep 100" (ExecOutcome.err timeoutErr) 60000).success =
      false :=
  ⟨rfl, c5_timeout_returns_failure "sleep 100" timeoutErr 60000 rfl⟩

/-- C6 counterexample: a process exiting with code 1 whose captured stderr
is empty: the `error.stderr?.trim() || error.message` fallback fires, so
the result's stderr field is the error message, not the captured stderr —
the result does not carry the captured stderr as data for this in-scope
invocation. -/
theorem c6_empty_stderr_reports_message :
    exitedSilentErr.exitCode = some 1 ∧
    exitedSilentErr.stderr = some "" ∧
    (runCommand "false" (ExecOutcome.err exitedSilentErr) 10).stderr =
      "Command failed: false" ∧
    (runCommand "false" (ExecOutcome.err exitedSilentErr) 10).stderr ≠
      strTrim "" :=
  ⟨rfl, rfl, rfl, by decide⟩

/-- C6 (amended): a process exiting with a nonzero code is returned as
structured data, never thrown: success = false, the exit code itself (the
`|| 1` fallback cannot fire on a nonzero code), the captured, trimmed
stdout, and the captured, trimmed stderr when the latter is nonempty —
when the captured stderr trims to empty, the result's stderr field carries
the error message instead. -/
theorem c6_nonzero_exit_structured (command : String) (e : ExecError)
    (d : Nat) (out errText : String) (n : Int)
    (hc : e.exitCode = some n) (hn : n ≠ 0)
    (ho : e.stdout = some out) (he : e.stderr = some errText) :
    (runCommand command (ExecOutcome.err e) d).success = false ∧
    (runCommand command (ExecOutcome.err e) d).exitCode = n ∧
    (runCommand command (ExecOutcome.err e) d).stdout = strTrim out ∧
    (runCommand command (ExecOutcome.err e) d).stderr =
      (if strTrim errText = "" then e.message else strTrim errText) := by
  cases e with
  | mk kind so se ec msg =>
    cases hc
    cases ho
    cases he
    refine ⟨rfl, ?_, ?_, ?_⟩
    · simp [runCommand, hn]
    · simp [runCommand, jsOrElse_some_empty]
    · rfl

/-- Witness for C6 (amended) at a concrete exit-code-2 outcome with
nonempty captured stderr. -/
theorem c6_nonzero_exit_structured_witness :
    ((2 : Int) ≠ 0) ∧
    ((runCommand "pnpm test" (ExecOutcome.err exitedErr) 1234).success =
        false ∧
     (runCommand "pnpm test" (ExecOutcome.err exitedErr) 1234).exitCode =
        2 ∧
     (runCommand "pnpm test" (ExecOutcome.err exitedErr) 1234).stdout =
        strTrim " 1 passed, 2 failed " ∧
     (runCommand "pnpm test" (ExecOutcome.err exitedErr) 1234).stderr =
        (if strTrim "tests failed" = "" then exitedErr.message
         else strTrim "tests failed")) :=
  ⟨by decide,
   c6_nonzero_exit_structured "pnpm test" exitedErr 1234
     " 1 passed, 2 failed " "tests failed" 2 rfl (by decide) rfl rfl⟩

/-- C7 counterexample: output past the `maxBuffer` cap makes `execAsync`
reject, so the handler's catch branch returns success = false — not a
still-successful result — and the declared output schema has no truncation
marker at all. -/
theorem c7_overflow_result_not_successful :
    overflowErr.kind = ExecFailKind.maxBufferExceeded ∧
    (runCommand "yes" (ExecOutcome.err overflowErr) 5).success = false :=
  ⟨rfl, rfl⟩

/-- C7 (amended): a run whose output passed the cap (child killed by Node,
output captured truncated at the cap) returns a structured result with
success = false carrying the truncated, trimmed capture; no exception is
thrown and no result field marks the truncation. -/
theorem c7_overflow_returns_failure (command : String) (e : ExecError)
    (d : Nat) (out : String)
    (hk : e.kind = ExecFailKind.maxBufferExceeded)
    (ho : e.stdout = some out) :
    (runCommand command (ExecOutcome.err e) d).success = false ∧
    (runCommand command (ExecOutcome.err e) d).stdout = strTrim out := by
  cases e with
  | mk kind so se ec msg =>
    cases ho
    exact ⟨rfl, by simp [runCommand, jsOrElse_some_empty]⟩

/-- Witness for C7 (amended) at the concrete overflow outcome. -/
theorem c7_overflow_returns_failure_witness :
    overflowErr.kind = ExecFailKind.maxBufferExceeded ∧
    overflowErr.stdout = some "xxxx" ∧
    ((runCommand "yes" (ExecOutcome.err overflowErr) 5).success = false ∧
     (runCommand "yes" (ExecOutcome.err overflowErr) 5).stdout =
       strTrim "xxxx") :=
  ⟨rfl, rfl, c7_overflow_returns_failure "yes" overflowErr 5 "xxxx" rfl rfl⟩

/-- C8: the handler passes `workingDir || process.cwd()` straight to
`execAsync`: an explicit working directory outside the sandbox root becomes
the effective cwd instead of being rejected. -/
theorem c8_workingDir_escapes_sandbox :
    effectiveCwd (some "/etc") "/repo/.worktrees/feat-1000" = "/etc" ∧
    insideSandbox "/repo/.worktrees/feat-1000" "/etc" = false :=
  ⟨rfl, by decide⟩

/-- C9: for every title, description and creation time, `createFeature`
returns a record with status backlog, the creation timestamp set, all four
lifecycle timestamps unset, and exactly one initial log entry. -/
theorem c9_create_initial_state (title description : String) (now : Nat) :
    (createFeature title description now).status = Status.backlog ∧
    (createFeature title description now).createdAt = now ∧
    (createFeature title description now).startedAt = none ∧
    (createFeature title description now).implementedAt = none ∧
    (createFeature title description now).completedAt = none ∧
    (createFeature title description now).rejectedAt = none ∧
    (createFeature title description now).logs.length = 1 :=
  ⟨rfl, rfl, rfl, rfl, rfl, rfl, rfl⟩

/-- C10: `listFeatures` is total: a missing features directory yields `[]`;
for any directory contents, the unreadable or unparsable records are
skipped and exactly the readable ones are returned (a permutation of them),
sorted newest-first by creation timestamp. -/
theorem c10_list_skips_and_sorts (entries : List (Option FeatureCard)) :
    listFeatures none = [] ∧
    (listFeatures (some entries)).Perm (entries.filterMap id) ∧
    (listFeatures (some entries)).Pairwise
      (fun a b => b.createdAt ≤ a.createdAt) := by
  refine ⟨rfl, List.mergeSort_perm _ _, ?_⟩
  have hs : (List.mergeSort (entries.filterMap id) featuresLe).Pairwise
      (fun a b => featuresLe a b = true) :=
    List.sorted_mergeSort
      (fun a b c h1 h2 => by
        simp only [featuresLe, decide_eq_true_eq] at h1 h2 ⊢
        exact Nat.le_trans h2 h1)
      (fun a b => by
        simp only [featuresLe, Bool.or_eq_true, decide_eq_true_eq]
        exact Nat.le_total b.createdAt a.createdAt)
      (entries.filterMap id)
  exact hs.imp (fun hab => by simpa [featuresLe] using hab)

end Makyno
